import Mathlib

/-!
Shallow embedding of `src/app.py` (planetaryApi): a Flask CRUD service over
two tables (`users`, `planets`), with JWT-guarded planet mutations and a
mail-based password-recovery endpoint.  Database state is a pair of row
lists plus auto-increment counters; each HTTP handler is a pure function
from (time, auth header, parsed request data, state) to (result, state).
-/

namespace PlanetaryApi

/-- Row of the `users` table (`class User`, app.py:38-44). -/
structure User where
  id : Nat
  firstname : String
  lastname : String
  email : String
  password : String
deriving Repr, DecidableEq

/-- Row of the `planets` table (`class Planet`, app.py:50-58).
`mass`, `radius`, `distance` are SQL floats, embedded as rationals. -/
structure Planet where
  planet_id : Nat
  planet_name : String
  planet_type : String
  home_star : String
  mass : Rat
  radius : Rat
  distance : Rat
deriving Repr, DecidableEq

/-- The relational store: the two tables plus the auto-increment cursors of
their integer primary keys. -/
structure DB where
  users : List User
  planets : List Planet
  nextUserId : Nat
  nextPlanetId : Nat
deriving Repr, DecidableEq

/-- Embeds `User.query.filter_by(email=email).first()` (app.py:178, 217). -/
def findUserByEmail (db : DB) (email : String) : Option User :=
  db.users.find? (fun u => u.email == email)

/-- Embeds `User.query.filter_by(email=email, password=password).first()` (app.py:207). -/
def findUserByEmailAndPassword (db : DB) (email password : String) : Option User :=
  db.users.find? (fun u => u.email == email && u.password == password)

/-- Embeds `Planet.query.filter_by(planet_id=planet_id).first()` (app.py:232, 273, 292).
The id supplied by `int(...)` may be any integer, so the key is compared as `Int`. -/
def findPlanetById (db : DB) (i : Int) : Option Planet :=
  db.planets.find? (fun p => (p.planet_id : Int) == i)

/-- Embeds `Planet.query.filter_by(planet_name=planet_name).first()` (app.py:251). -/
def findPlanetByName (db : DB) (name : String) : Option Planet :=
  db.planets.find? (fun p => p.planet_name == name)

/-- Embeds `db.session.add(User(...)); db.session.commit()` (app.py:186-193): a new row
receives the next auto-increment id and is appended to the table. -/
def insertUser (db : DB) (firstname lastname email password : String) : User × DB :=
  let u : User := ⟨db.nextUserId, firstname, lastname, email, password⟩
  (u, ⟨db.users ++ [u], db.planets, db.nextUserId + 1, db.nextPlanetId⟩)

/-- Embeds `db.session.add(Planet(...)); db.session.commit()` (app.py:255-265). -/
def insertPlanet (db : DB) (name ptype star : String) (m r d : Rat) : Planet × DB :=
  let p : Planet := ⟨db.nextPlanetId, name, ptype, star, m, r, d⟩
  (p, ⟨db.users, db.planets ++ [p], db.nextUserId, db.nextPlanetId + 1⟩)

/-! ## Authentication (flask_jwt_extended) -/

/-- The server secret, `app.config` key `JWT_SECRET_KEY` = `super_secret` (app.py:16). -/
def JWT_SECRET : String := "super_secret"

/-- flask_jwt_extended default access-token lifetime: 15 minutes, in seconds. -/
def TOKEN_TTL : Nat := 900

/-- HMAC of a JWT payload, abstracted to an injective encoding of
(secret, subject, expiry). -/
def sign (secret subject : String) (exp : Nat) : List Nat :=
  secret.toList.map Char.toNat ++ [0] ++ subject.toList.map Char.toNat ++ [0, exp]

/-- A decoded JWT bearer token: subject claim, expiry claim, signature. -/
structure Token where
  subject : String
  exp : Nat
  sig : List Nat
deriving Repr, DecidableEq

/-- Embeds `create_access_token(identity=email)` (app.py:209): a token whose subject
is the identity, expiring `TOKEN_TTL` from now, signed with the server secret. -/
def create_access_token (now : Nat) (identity : String) : Token :=
  ⟨identity, now + TOKEN_TTL, sign JWT_SECRET identity (now + TOKEN_TTL)⟩

/-- JWT validation: the signature must verify against the server secret and
the token must not be expired. -/
def verify (now : Nat) (t : Token) : Bool :=
  t.sig == sign JWT_SECRET t.subject t.exp && now < t.exp

/-- The `@jwt_required()` guard (app.py:242, 270, 290): the Authorization
header must carry a token (else missing/malformed) that verifies. -/
def authOk (now : Nat) (auth : Option Token) : Bool :=
  match auth with
  | none => false
  | some t => verify now t

/-! ## Request and response shapes -/

/-- A submitted form / JSON body: ordered key-value pairs of strings. -/
abbrev Form := List (String × String)

/-- Form field access, `request.form` and `request.json` indexing (raises `KeyError` when
missing, hence `Option`). -/
def Form.get? (f : Form) (k : String) : Option String :=
  (f.find? (fun p => p.1 == k)).map Prod.snd

/-- Digit-string to `Nat`; `none` on the empty string or a non-digit. -/
def parseDigits? (s : List Char) : Option Nat :=
  if s.isEmpty then none
  else s.foldlM (fun acc c => if c.isDigit then some (acc * 10 + (c.toNat - 48)) else none) 0

/-- Python `int(s)` on plain integer literals (optional sign, digits);
`none` models the `ValueError` raise. -/
def parseInt? (s : String) : Option Int :=
  match s.toList with
  | '-' :: rest => (parseDigits? rest).map (fun n => -(n : Int))
  | l => (parseDigits? l).map (fun n => (n : Int))

/-- Python `float(s)` on plain decimal literals (optional sign, digits,
optional fractional part); `none` models the `ValueError` raise. -/
def parseFloat? (s : String) : Option Rat :=
  let cs := s.toList
  let (neg, t) :=
    match cs with
    | '-' :: rest => (true, rest)
    | l => (false, l)
  let ip := t.takeWhile (fun c => c != '.')
  let rest := t.dropWhile (fun c => c != '.')
  match rest with
  | [] => (parseDigits? ip).map (fun n => if neg then -(n : Rat) else (n : Rat))
  | _ :: frac =>
    if frac.contains '.' then none
    else do
      let a ← parseDigits? ip
      let b ← parseDigits? frac
      let q : Rat := (a : Rat) + (b : Rat) / ((10 : Rat) ^ frac.length)
      pure (if neg then -q else q)

/-- Python `str.title()` (app.py:244): a cased character is uppercased when the
preceding character is not cased, lowercased otherwise. -/
def pyTitle (s : String) : String :=
  String.mk (s.toList.foldl
    (fun (acc : List Char × Bool) c =>
      if c.isAlpha then (acc.1 ++ [if acc.2 then c.toLower else c.toUpper], true)
      else (acc.1 ++ [c], false))
    ([], false)).1

/-- An HTTP response: status code, `message` field, optional `access_token`
field (login), optional serialized planet body (detail endpoint). -/
structure Response where
  status : Nat
  message : String
  access_token : Option Token
  planet : Option Planet
deriving Repr, DecidableEq

/-- Outcome of running a handler body: a response, or an uncaught Python
exception (`KeyError` on a missing field, `ValueError` on a failed parse). -/
inductive HandlerResult where
  | ok (r : Response)
  | err (e : String)
deriving Repr, DecidableEq

/-- An outgoing mail (`Message(...)`, app.py:219-223): subject, sender,
recipient list. -/
structure MailMessage where
  subject : String
  sender : String
  recipients : List String
deriving Repr, DecidableEq

/-! ## Handlers

Each handler returns its result together with the resulting database state
(and, for `retrieve_password`, the list of mails dispatched).  Handlers that
issue no write return the state unchanged, matching the absence of any
`db.session` mutation in their bodies. -/

/-- Handler for `POST /register` (app.py:174-194): reject a taken email with 409, else
insert the new user and answer 201. -/
def register (form : Form) (db : DB) : HandlerResult × DB :=
  match form.get? "email" with
  | none => (.err "KeyError", db)
  | some email =>
    match findUserByEmail db email with
    | some _ => (.ok ⟨409, "Email already exists", none, none⟩, db)
    | none =>
      match form.get? "firstname", form.get? "lastname", form.get? "password" with
      | some firstname, some lastname, some password =>
        let (_, db2) := insertUser db firstname lastname email password
        (.ok ⟨201, "User created successfully", none, none⟩, db2)
      | _, _, _ => (.err "KeyError", db)

/-- Handler for `POST /login` (app.py:197-212): exact (email, password) match issues an
access token, mismatch answers 401.  (The JSON and form branches of the
source extract the same two fields; the body is embedded once.) -/
def login (now : Nat) (form : Form) (db : DB) : HandlerResult × DB :=
  match form.get? "email", form.get? "password" with
  | some email, some password =>
    match findUserByEmailAndPassword db email password with
    | some _ =>
      (.ok ⟨200, "Login succeeded", some (create_access_token now email), none⟩, db)
    | none => (.ok ⟨401, "Bad email or password", none, none⟩, db)
  | _, _ => (.err "KeyError", db)

/-- Handler for `GET /retrieve_password/<email>` (app.py:215-227): mail the stored
plaintext password to a known address, else 401.  Third component: the mails
sent while handling the request. -/
def retrieve_password (email : String) (db : DB) : HandlerResult × DB × List MailMessage :=
  match findUserByEmail db email with
  | some user =>
    let msg : MailMessage :=
      ⟨"Your planetary API password is \x27" ++ user.password ++ "\x27",
       "admin@planetary-api.com", [email]⟩
    (.ok ⟨200, "Password sent to " ++ email, none, none⟩, db, [msg])
  | none => (.ok ⟨401, "That email doesn\x27t exists.", none, none⟩, db, [])

/-- Handler for `GET /planet_detail/<int:planet_id>` (app.py:230-238): serialized planet
or 404.  The Flask `int` converter only matches digit runs, hence `Nat`. -/
def planet_details (planet_id : Nat) (db : DB) : HandlerResult × DB :=
  match findPlanetById db planet_id with
  | some planet => (.ok ⟨200, "", none, some planet⟩, db)
  | none => (.ok ⟨404, "Such planet does not exists", none, none⟩, db)

/-- Handler for `GET /planets` (app.py:166-171): the serialized list of all rows. -/
def list_planets (db : DB) : List Planet × DB :=
  (db.planets, db)

/-- Handler for `POST /add_planet` (app.py:241-266), guarded by `@jwt_required()`:
title-case the submitted name, reject an existing name with 409, else insert
and answer 201. -/
def add_planet (now : Nat) (auth : Option Token) (form : Form) (db : DB) :
    HandlerResult × DB :=
  if authOk now auth then
    match form.get? "planet_name" with
    | none => (.err "KeyError", db)
    | some rawName =>
      let planet_name := pyTitle rawName
      match form.get? "planet_type", form.get? "home_star" with
      | some planet_type, some home_star =>
        match (form.get? "mass").bind parseFloat?, (form.get? "radius").bind parseFloat?,
              (form.get? "distance").bind parseFloat? with
        | some mass, some radius, some distance =>
          match findPlanetByName db planet_name with
          | some _ => (.ok ⟨409, "Theres is already a planet with that name.", none, none⟩, db)
          | none =>
            let (_, db2) := insertPlanet db planet_name planet_type home_star mass radius distance
            (.ok ⟨201, planet_name ++ " was added successfully.", none, none⟩, db2)
        | _, _, _ => (.err "KeyError or ValueError", db)
      | _, _ => (.err "KeyError", db)
  else (.ok ⟨401, "Missing Authorization Header", none, none⟩, db)

/-- Handler for `PUT /update_planet` (app.py:269-286), guarded by `@jwt_required()`:
overwrite every mutable field of the row selected by the `planet_id` form
field with the submitted values (the name verbatim, not title-cased), else
404.  The commit writes the mutated row back over the selected row. -/
def update_planet (now : Nat) (auth : Option Token) (form : Form) (db : DB) :
    HandlerResult × DB :=
  if authOk now auth then
    match (form.get? "planet_id").bind parseInt? with
    | none => (.err "KeyError or ValueError", db)
    | some planet_id =>
      match findPlanetById db planet_id with
      | some planet =>
        match form.get? "planet_name", form.get? "planet_type", form.get? "home_star" with
        | some name, some ptype, some star =>
          match (form.get? "mass").bind parseFloat?, (form.get? "radius").bind parseFloat?,
                (form.get? "distance").bind parseFloat? with
          | some mass, some radius, some distance =>
            let planet2 : Planet := ⟨planet.planet_id, name, ptype, star, mass, radius, distance⟩
            let planets2 := db.planets.map
              (fun q => if q.planet_id == planet.planet_id then planet2 else q)
            (.ok ⟨202, name ++ " was updated!", none, none⟩,
             ⟨db.users, planets2, db.nextUserId, db.nextPlanetId⟩)
          | _, _, _ => (.err "KeyError or ValueError", db)
        | _, _, _ => (.err "KeyError", db)
      | none => (.ok ⟨404, "That planet does not exists", none, none⟩, db)
  else (.ok ⟨401, "Missing Authorization Header", none, none⟩, db)

/-- Handler for `DELETE /remove_planet/<int:planet_id>` (app.py:289-298), guarded by
`@jwt_required()`: delete the row if present (202); otherwise only a message,
with no status override — Flask then answers with the default 200. -/
def remove_planet (now : Nat) (auth : Option Token) (planet_id : Nat) (db : DB) :
    HandlerResult × DB :=
  if authOk now auth then
    match findPlanetById db planet_id with
    | some planet =>
      (.ok ⟨202, "Planet was deleted.", none, none⟩,
       ⟨db.users, db.planets.eraseP (fun q => q.planet_id == planet.planet_id),
        db.nextUserId, db.nextPlanetId⟩)
    | none => (.ok ⟨200, "There is no planet with that id.", none, none⟩, db)
  else (.ok ⟨401, "Missing Authorization Header", none, none⟩, db)

/-! ## Concrete fixtures (mirroring the `db_seed` data, app.py:95-134) -/

/-- A token issued at time 0 for the seeded test user. -/
def tokW : Token := create_access_token 0 "jemima_eloise@earth.com"

/-- The seeded test user (app.py:125-130). -/
def userW : User := ⟨1, "Jemima", "Briones", "jemima_eloise@earth.com", "chulis2022"⟩

/-- A small concrete store: two seeded planets and the seeded user. -/
def dbW : DB :=
  ⟨[userW],
   [⟨1, "Mercury", "Class D", "Sol", 3258, 1516, 3598⟩,
    ⟨2, "Venus", "Class K", "Sol", 4867, 3760, 6724⟩],
   2, 3⟩

/-! ## Theorems -/

/-- C2: a request to `add_planet`, `update_planet`, or `remove_planet` whose
Authorization header fails JWT validation (missing, malformed, expired or
signature-invalid) is answered 401 and leaves the store untouched, whatever
the payload. -/
theorem protected_endpoints_unauthorized
    (now : Nat) (auth : Option Token) (form : Form) (pid : Nat) (db : DB)
    (h : authOk now auth = false) :
    add_planet now auth form db =
      (.ok ⟨401, "Missing Authorization Header", none, none⟩, db) ∧
    update_planet now auth form db =
      (.ok ⟨401, "Missing Authorization Header", none, none⟩, db) ∧
    remove_planet now auth pid db =
      (.ok ⟨401, "Missing Authorization Header", none, none⟩, db) := by
  unfold add_planet update_planet remove_planet
  simp [h]

/-- Witness for C2: an absent Authorization header at a concrete store. -/
theorem protected_endpoints_unauthorized_witness :
    authOk 0 none = false ∧
    (add_planet 0 none [] dbW =
      (.ok ⟨401, "Missing Authorization Header", none, none⟩, dbW) ∧
     update_planet 0 none [] dbW =
      (.ok ⟨401, "Missing Authorization Header", none, none⟩, dbW) ∧
     remove_planet 0 none 1 dbW =
      (.ok ⟨401, "Missing Authorization Header", none, none⟩, dbW)) :=
  ⟨rfl, protected_endpoints_unauthorized 0 none [] 1 dbW rfl⟩

/-- C4: deleting a planet id that is not in the store, with a valid token,
answers only the does-not-exist message — no status override, so the default
status 200 — and returns the planet table unchanged. -/
theorem remove_planet_missing_id_message_only
    (now : Nat) (auth : Option Token) (pid : Nat) (db : DB)
    (hauth : authOk now auth = true)
    (habs : findPlanetById db (pid : Int) = none) :
    remove_planet now auth pid db =
      (.ok ⟨200, "There is no planet with that id.", none, none⟩, db) := by
  unfold remove_planet
  simp [hauth, habs]

/-- Witness for C4: id 9999 is absent from the concrete store. -/
theorem remove_planet_missing_id_message_only_witness :
    authOk 0 (some tokW) = true ∧
    findPlanetById dbW ((9999 : Nat) : Int) = none ∧
    remove_planet 0 (some tokW) 9999 dbW =
      (.ok ⟨200, "There is no planet with that id.", none, none⟩, dbW) :=
  ⟨by decide, by decide,
   remove_planet_missing_id_message_only 0 (some tokW) 9999 dbW (by decide) (by decide)⟩

/-- C1: logging in with the exact (email, password) pair stored for a
registered user answers 200 with a token whose verification succeeds and
whose subject claim is that email; a pair matching no stored user answers
401 with no token in the response. -/
theorem login_token_contract
    (now : Nat) (db : DB) (u : User) (email password : String) :
    (u ∈ db.users →
      ∃ t : Token,
        login now [("email", u.email), ("password", u.password)] db =
          (.ok ⟨200, "Login succeeded", some t, none⟩, db) ∧
        verify now t = true ∧ t.subject = u.email) ∧
    (findUserByEmailAndPassword db email password = none →
      login now [("email", email), ("password", password)] db =
        (.ok ⟨401, "Bad email or password", none, none⟩, db)) := by
  constructor
  · intro hu
    refine ⟨create_access_token now u.email, ?_, ?_, rfl⟩
    · have hs : (findUserByEmailAndPassword db u.email u.password).isSome := by
        unfold findUserByEmailAndPassword
        rw [List.find?_isSome]
        exact ⟨u, hu, by simp⟩
      obtain ⟨v, hv⟩ := Option.isSome_iff_exists.mp hs
      unfold login
      have h1 : Form.get? [("email", u.email), ("password", u.password)] "email"
          = some u.email := rfl
      have h2 : Form.get? [("email", u.email), ("password", u.password)] "password"
          = some u.password := rfl
      rw [h1, h2]
      simp [hv]
    · simp [verify, create_access_token, TOKEN_TTL]
  · intro hnone
    unfold login
    have h1 : Form.get? [("email", email), ("password", password)] "email"
        = some email := rfl
    have h2 : Form.get? [("email", email), ("password", password)] "password"
        = some password := rfl
    rw [h1, h2]
    simp [hnone]

/-- Witness for C1: the seeded user logs in successfully, a wrong pair is
rejected, at the concrete store. -/
theorem login_token_contract_witness :
    userW ∈ dbW.users ∧
    (∃ t : Token,
      login 0 [("email", userW.email), ("password", userW.password)] dbW =
        (.ok ⟨200, "Login succeeded", some t, none⟩, dbW) ∧
      verify 0 t = true ∧ t.subject = userW.email) ∧
    findUserByEmailAndPassword dbW "jemima_eloise@earth.com" "wrong" = none ∧
    login 0 [("email", "jemima_eloise@earth.com"), ("password", "wrong")] dbW =
      (.ok ⟨401, "Bad email or password", none, none⟩, dbW) :=
  ⟨by decide,
   (login_token_contract 0 dbW userW "jemima_eloise@earth.com" "wrong").1 (by decide),
   by decide,
   (login_token_contract 0 dbW userW "jemima_eloise@earth.com" "wrong").2 (by decide)⟩

/-- C3: registering an absent email answers 201 and appends the user; an
immediately repeated registration of the same email answers 409 and leaves
the whole store — in particular the users table — unchanged, and exactly one
user row with that email exists afterward. -/
theorem register_twice_conflict
    (form : Form) (db : DB) (email firstname lastname password : String)
    (hemail : form.get? "email" = some email)
    (hf : form.get? "firstname" = some firstname)
    (hl : form.get? "lastname" = some lastname)
    (hp : form.get? "password" = some password)
    (habs : findUserByEmail db email = none) :
    ∃ db2 : DB,
      register form db = (.ok ⟨201, "User created successfully", none, none⟩, db2) ∧
      register form db2 = (.ok ⟨409, "Email already exists", none, none⟩, db2) ∧
      db2.users.countP (fun u => u.email == email) = 1 := by
  refine ⟨⟨db.users ++ [⟨db.nextUserId, firstname, lastname, email, password⟩],
           db.planets, db.nextUserId + 1, db.nextPlanetId⟩, ?_, ?_, ?_⟩
  · unfold register
    rw [hemail]
    simp [habs, hf, hl, hp, insertUser]
  · unfold register
    rw [hemail]
    have hfound : findUserByEmail
        ⟨db.users ++ [⟨db.nextUserId, firstname, lastname, email, password⟩],
         db.planets, db.nextUserId + 1, db.nextPlanetId⟩ email
        = some ⟨db.nextUserId, firstname, lastname, email, password⟩ := by
      unfold findUserByEmail at habs ⊢
      rw [List.find?_append]
      simp_all
    simp [hfound]
  · have hz : db.users.countP (fun u => u.email == email) = 0 := by
      rw [List.countP_eq_zero]
      unfold findUserByEmail at habs
      rw [List.find?_eq_none] at habs
      exact habs
    simp [List.countP_append, hz, List.countP_cons]

/-- Witness for C3: registering a fresh email twice against an empty store. -/
theorem register_twice_conflict_witness :
    Form.get? [("email", "a@b.c"), ("firstname", "Ana"), ("lastname", "Lee"),
               ("password", "pw")] "email" = some "a@b.c" ∧
    findUserByEmail ⟨[], [], 1, 1⟩ "a@b.c" = none ∧
    (∃ db2 : DB,
      register [("email", "a@b.c"), ("firstname", "Ana"), ("lastname", "Lee"),
                ("password", "pw")] ⟨[], [], 1, 1⟩ =
        (.ok ⟨201, "User created successfully", none, none⟩, db2) ∧
      register [("email", "a@b.c"), ("firstname", "Ana"), ("lastname", "Lee"),
                ("password", "pw")] db2 =
        (.ok ⟨409, "Email already exists", none, none⟩, db2) ∧
      db2.users.countP (fun u => u.email == "a@b.c") = 1) :=
  ⟨rfl, rfl,
   register_twice_conflict
     [("email", "a@b.c"), ("firstname", "Ana"), ("lastname", "Lee"), ("password", "pw")]
     ⟨[], [], 1, 1⟩ "a@b.c" "Ana" "Lee" "pw" rfl rfl rfl rfl rfl⟩

/-- C8: password retrieval for a stored email answers 200 and dispatches
exactly one mail, addressed to that email, whose text carries the stored
plaintext password; an unknown email answers 401 with a does-not-exist
message and no mail is sent. -/
theorem retrieve_password_mail_contract
    (db : DB) (email : String) (u : User) :
    (findUserByEmail db email = some u →
      retrieve_password email db =
        (.ok ⟨200, "Password sent to " ++ email, none, none⟩, db,
         [⟨"Your planetary API password is \x27" ++ u.password ++ "\x27",
           "admin@planetary-api.com", [email]⟩])) ∧
    (findUserByEmail db email = none →
      retrieve_password email db =
        (.ok ⟨401, "That email doesn\x27t exists.", none, none⟩, db, [])) := by
  constructor <;> intro h <;> unfold retrieve_password <;> simp [h]

/-- Witness for C8: the seeded email receives its password, an unknown email
is rejected, at the concrete store. -/
theorem retrieve_password_mail_contract_witness :
    findUserByEmail dbW "jemima_eloise@earth.com" = some userW ∧
    retrieve_password "jemima_eloise@earth.com" dbW =
      (.ok ⟨200, "Password sent to jemima_eloise@earth.com", none, none⟩, dbW,
       [⟨"Your planetary API password is \x27chulis2022\x27",
         "admin@planetary-api.com", ["jemima_eloise@earth.com"]⟩]) ∧
    findUserByEmail dbW "nobody@earth.com" = none ∧
    retrieve_password "nobody@earth.com" dbW =
      (.ok ⟨401, "That email doesn\x27t exists.", none, none⟩, dbW, []) :=
  ⟨by decide,
   (retrieve_password_mail_contract dbW "jemima_eloise@earth.com" userW).1 (by decide),
   by decide,
   (retrieve_password_mail_contract dbW "nobody@earth.com" userW).2 (by decide)⟩

/-- C6: an authenticated `add_planet` request title-cases the submitted name
before any use; it answers 409 and inserts nothing when a planet with the
title-cased name exists, and otherwise inserts exactly the submitted record
under the title-cased name and answers 201. -/
theorem add_planet_titlecase_insert
    (now : Nat) (auth : Option Token) (db : DB)
    (name ptype star sm sr sd : String) (m r d : Rat)
    (hauth : authOk now auth = true)
    (hm : parseFloat? sm = some m) (hr : parseFloat? sr = some r)
    (hd : parseFloat? sd = some d) :
    (∀ q : Planet, findPlanetByName db (pyTitle name) = some q →
      add_planet now auth
        [("planet_name", name), ("planet_type", ptype), ("home_star", star),
         ("mass", sm), ("radius", sr), ("distance", sd)] db =
        (.ok ⟨409, "Theres is already a planet with that name.", none, none⟩, db)) ∧
    (findPlanetByName db (pyTitle name) = none →
      add_planet now auth
        [("planet_name", name), ("planet_type", ptype), ("home_star", star),
         ("mass", sm), ("radius", sr), ("distance", sd)] db =
        (.ok ⟨201, pyTitle name ++ " was added successfully.", none, none⟩,
         ⟨db.users,
          db.planets ++ [⟨db.nextPlanetId, pyTitle name, ptype, star, m, r, d⟩],
          db.nextUserId, db.nextPlanetId + 1⟩)) := by
  have h1 : Form.get? [("planet_name", name), ("planet_type", ptype), ("home_star", star),
      ("mass", sm), ("radius", sr), ("distance", sd)] "planet_name" = some name := rfl
  have h2 : Form.get? [("planet_name", name), ("planet_type", ptype), ("home_star", star),
      ("mass", sm), ("radius", sr), ("distance", sd)] "planet_type" = some ptype := rfl
  have h3 : Form.get? [("planet_name", name), ("planet_type", ptype), ("home_star", star),
      ("mass", sm), ("radius", sr), ("distance", sd)] "home_star" = some star := rfl
  have h4 : Form.get? [("planet_name", name), ("planet_type", ptype), ("home_star", star),
      ("mass", sm), ("radius", sr), ("distance", sd)] "mass" = some sm := rfl
  have h5 : Form.get? [("planet_name", name), ("planet_type", ptype), ("home_star", star),
      ("mass", sm), ("radius", sr), ("distance", sd)] "radius" = some sr := rfl
  have h6 : Form.get? [("planet_name", name), ("planet_type", ptype), ("home_star", star),
      ("mass", sm), ("radius", sr), ("distance", sd)] "distance" = some sd := rfl
  constructor
  · intro q hq
    unfold add_planet
    rw [h1]
    simp [hauth, h2, h3, h4, h5, h6, hm, hr, hd, hq]
  · intro habs
    unfold add_planet
    rw [h1]
    simp [hauth, h2, h3, h4, h5, h6, hm, hr, hd, habs, insertPlanet]

/-- Witness for C6: at the concrete store, adding name `venus` collides with
the stored `Venus` after title-casing, while adding `pluto` inserts a row
named `Pluto`. -/
theorem add_planet_titlecase_insert_witness :
    authOk 0 (some tokW) = true ∧
    parseFloat? "45" = some (45 : Rat) ∧
    findPlanetByName dbW (pyTitle "venus") = some ⟨2, "Venus", "Class K", "Sol", 4867, 3760, 6724⟩ ∧
    add_planet 0 (some tokW)
      [("planet_name", "venus"), ("planet_type", "Class K"), ("home_star", "Sol"),
       ("mass", "45"), ("radius", "45"), ("distance", "45")] dbW =
      (.ok ⟨409, "Theres is already a planet with that name.", none, none⟩, dbW) ∧
    findPlanetByName dbW (pyTitle "pluto") = none ∧
    add_planet 0 (some tokW)
      [("planet_name", "pluto"), ("planet_type", "Class K"), ("home_star", "Sol"),
       ("mass", "45"), ("radius", "45"), ("distance", "45")] dbW =
      (.ok ⟨201, pyTitle "pluto" ++ " was added successfully.", none, none⟩,
       ⟨dbW.users,
        dbW.planets ++ [⟨dbW.nextPlanetId, pyTitle "pluto", "Class K", "Sol", 45, 45, 45⟩],
        dbW.nextUserId, dbW.nextPlanetId + 1⟩) :=
  ⟨by decide, by decide, by decide,
   (add_planet_titlecase_insert 0 (some tokW) dbW "venus" "Class K" "Sol"
      "45" "45" "45" 45 45 45 (by decide) (by decide) (by decide)
      (by decide)).1 ⟨2, "Venus", "Class K", "Sol", 4867, 3760, 6724⟩ (by decide),
   by decide,
   (add_planet_titlecase_insert 0 (some tokW) dbW "pluto" "Class K" "Sol"
      "45" "45" "45" 45 45 45 (by decide) (by decide) (by decide)
      (by decide)).2 (by decide)⟩

/-- C7: inserting a planet record and looking it up by the id the insert
assigned returns a record equal to the inserted one, all six payload fields
included, provided every existing id is below the auto-increment cursor. -/
theorem insertPlanet_findPlanetById_roundtrip
    (db : DB) (name ptype star : String) (m r d : Rat)
    (hfresh : ∀ q ∈ db.planets, q.planet_id < db.nextPlanetId) :
    ∃ (p : Planet) (db2 : DB),
      insertPlanet db name ptype star m r d = (p, db2) ∧
      p.planet_name = name ∧ p.planet_type = ptype ∧ p.home_star = star ∧
      p.mass = m ∧ p.radius = r ∧ p.distance = d ∧
      findPlanetById db2 (p.planet_id : Int) = some p := by
  refine ⟨⟨db.nextPlanetId, name, ptype, star, m, r, d⟩,
          ⟨db.users, db.planets ++ [⟨db.nextPlanetId, name, ptype, star, m, r, d⟩],
           db.nextUserId, db.nextPlanetId + 1⟩,
          ?_, rfl, rfl, rfl, rfl, rfl, rfl, ?_⟩
  · rfl
  unfold findPlanetById
  rw [List.find?_append]
  have h1 : db.planets.find?
      (fun p => ((p.planet_id : Nat) : Int) == ((db.nextPlanetId : Nat) : Int)) = none := by
    rw [List.find?_eq_none]
    intro q hq
    have := hfresh q hq
    simp only [beq_iff_eq, Int.natCast_inj]
    omega
  rw [h1]
  simp

/-- Witness for C7: inserting a fresh record into the concrete store and
finding it again under the assigned id. -/
theorem insertPlanet_findPlanetById_roundtrip_witness :
    (∀ q ∈ dbW.planets, q.planet_id < dbW.nextPlanetId) ∧
    (∃ (p : Planet) (db2 : DB),
      insertPlanet dbW "Pluto" "Class D" "Sol" 7 8 9 = (p, db2) ∧
      p.planet_name = "Pluto" ∧ p.planet_type = "Class D" ∧ p.home_star = "Sol" ∧
      p.mass = 7 ∧ p.radius = 8 ∧ p.distance = 9 ∧
      findPlanetById db2 (p.planet_id : Int) = some p) :=
  ⟨by decide,
   insertPlanet_findPlanetById_roundtrip dbW "Pluto" "Class D" "Sol" 7 8 9 (by decide)⟩

/-- General behavior of `update_planet` on a found row with a complete form:
every mutable field of the selected row is overwritten with the submitted
values — the name verbatim — and no other row changes. -/
theorem update_planet_found_eq
    (now : Nat) (auth : Option Token) (db : DB) (p : Planet) (pid : Int)
    (sid name ptype star sm sr sd : String) (m r d : Rat)
    (hauth : authOk now auth = true)
    (hsid : parseInt? sid = some pid)
    (hfind : findPlanetById db pid = some p)
    (hm : parseFloat? sm = some m) (hr : parseFloat? sr = some r)
    (hd : parseFloat? sd = some d) :
    update_planet now auth
      [("planet_id", sid), ("planet_name", name), ("planet_type", ptype),
       ("home_star", star), ("mass", sm), ("radius", sr), ("distance", sd)] db =
      (.ok ⟨202, name ++ " was updated!", none, none⟩,
       ⟨db.users,
        db.planets.map (fun q => if q.planet_id == p.planet_id then
          ⟨p.planet_id, name, ptype, star, m, r, d⟩ else q),
        db.nextUserId, db.nextPlanetId⟩) := by
  have h0 : Form.get? [("planet_id", sid), ("planet_name", name), ("planet_type", ptype),
      ("home_star", star), ("mass", sm), ("radius", sr), ("distance", sd)]
      "planet_id" = some sid := rfl
  have h1 : Form.get? [("planet_id", sid), ("planet_name", name), ("planet_type", ptype),
      ("home_star", star), ("mass", sm), ("radius", sr), ("distance", sd)]
      "planet_name" = some name := rfl
  have h2 : Form.get? [("planet_id", sid), ("planet_name", name), ("planet_type", ptype),
      ("home_star", star), ("mass", sm), ("radius", sr), ("distance", sd)]
      "planet_type" = some ptype := rfl
  have h3 : Form.get? [("planet_id", sid), ("planet_name", name), ("planet_type", ptype),
      ("home_star", star), ("mass", sm), ("radius", sr), ("distance", sd)]
      "home_star" = some star := rfl
  have h4 : Form.get? [("planet_id", sid), ("planet_name", name), ("planet_type", ptype),
      ("home_star", star), ("mass", sm), ("radius", sr), ("distance", sd)]
      "mass" = some sm := rfl
  have h5 : Form.get? [("planet_id", sid), ("planet_name", name), ("planet_type", ptype),
      ("home_star", star), ("mass", sm), ("radius", sr), ("distance", sd)]
      "radius" = some sr := rfl
  have h6 : Form.get? [("planet_id", sid), ("planet_name", name), ("planet_type", ptype),
      ("home_star", star), ("mass", sm), ("radius", sr), ("distance", sd)]
      "distance" = some sd := rfl
  unfold update_planet
  rw [h0]
  simp [hauth, hsid, hfind, h1, h2, h3, h4, h5, h6, hm, hr, hd]

/-- C5: an authenticated update whose form repeats the selected planet's
current values in every field except `mass` changes only the mass: the
resulting row keeps the prior id, name, type, star, radius and distance, no
other row is touched, and the handler answers 202; an absent planet id is
answered 404 with the store unchanged. -/
theorem update_planet_mass_only_frame
    (now : Nat) (auth : Option Token) (db : DB) (p : Planet) (pid : Int)
    (sid sm sr sd : String) (m : Rat)
    (hauth : authOk now auth = true)
    (hsid : parseInt? sid = some pid)
    (hfind : findPlanetById db pid = some p)
    (hm : parseFloat? sm = some m)
    (hr : parseFloat? sr = some p.radius)
    (hd : parseFloat? sd = some p.distance) :
    update_planet now auth
      [("planet_id", sid), ("planet_name", p.planet_name),
       ("planet_type", p.planet_type), ("home_star", p.home_star),
       ("mass", sm), ("radius", sr), ("distance", sd)] db =
      (.ok ⟨202, p.planet_name ++ " was updated!", none, none⟩,
       ⟨db.users,
        db.planets.map (fun q => if q.planet_id == p.planet_id then
          ⟨p.planet_id, p.planet_name, p.planet_type, p.home_star,
           m, p.radius, p.distance⟩ else q),
        db.nextUserId, db.nextPlanetId⟩) ∧
    (∀ (db3 : DB) (pid3 : Int) (sid3 : String) (form3 : Form),
      Form.get? form3 "planet_id" = some sid3 → parseInt? sid3 = some pid3 →
      findPlanetById db3 pid3 = none →
      update_planet now auth form3 db3 =
        (.ok ⟨404, "That planet does not exists", none, none⟩, db3)) := by
  constructor
  · exact update_planet_found_eq now auth db p pid sid p.planet_name p.planet_type
      p.home_star sm sr sd m p.radius p.distance hauth hsid hfind hm hr hd
  · intro db3 pid3 sid3 form3 hg hs hn
    unfold update_planet
    simp [hauth, hg, hs, hn]

/-- Witness for C5: bump the mass of the concrete Venus row to 10, all other
fields resubmitted unchanged; then a 404 on the absent id 9999. -/
theorem update_planet_mass_only_frame_witness :
    authOk 0 (some tokW) = true ∧
    parseInt? "2" = some 2 ∧
    findPlanetById dbW 2 = some ⟨2, "Venus", "Class K", "Sol", 4867, 3760, 6724⟩ ∧
    parseFloat? "10" = some 10 ∧
    update_planet 0 (some tokW)
      [("planet_id", "2"), ("planet_name", "Venus"), ("planet_type", "Class K"),
       ("home_star", "Sol"), ("mass", "10"), ("radius", "3760"),
       ("distance", "6724")] dbW =
      (.ok ⟨202, "Venus was updated!", none, none⟩,
       ⟨dbW.users,
        dbW.planets.map (fun q => if q.planet_id == 2 then
          ⟨2, "Venus", "Class K", "Sol", 10, 3760, 6724⟩ else q),
        dbW.nextUserId, dbW.nextPlanetId⟩) ∧
    update_planet 0 (some tokW) [("planet_id", "9999")] dbW =
      (.ok ⟨404, "That planet does not exists", none, none⟩, dbW) :=
  ⟨by decide, by decide, by decide, by decide,
   (update_planet_mass_only_frame 0 (some tokW) dbW
      ⟨2, "Venus", "Class K", "Sol", 4867, 3760, 6724⟩ 2 "2" "10" "3760" "6724" 10
      (by decide) (by decide) (by decide) (by decide) (by decide) (by decide)).1,
   (update_planet_mass_only_frame 0 (some tokW) dbW
      ⟨2, "Venus", "Class K", "Sol", 4867, 3760, 6724⟩ 2 "2" "10" "3760" "6724" 10
      (by decide) (by decide) (by decide) (by decide) (by decide) (by decide)).2
     dbW 9999 "9999" [("planet_id", "9999")] rfl rfl (by decide)⟩

/-- A one-planet store used to exhibit the case-collision scenario. -/
def dbV : DB := ⟨[], [⟨1, "Venus", "Class K", "Sol", 1, 1, 1⟩], 1, 2⟩

/-- C10: `update_planet` stores the submitted planet name verbatim — neither
title-cased nor checked against existing names, unlike `add_planet` — so
adding a planet and then renaming another planet to a case-variant of its
name leaves two planets whose names differ only in letter case. -/
theorem update_planet_verbatim_name_case_collision
    (now : Nat) (auth : Option Token) (db : DB) (p : Planet) (pid : Int)
    (sid name ptype star sm sr sd : String) (m r d : Rat)
    (hauth : authOk now auth = true)
    (hsid : parseInt? sid = some pid)
    (hfind : findPlanetById db pid = some p)
    (hm : parseFloat? sm = some m) (hr : parseFloat? sr = some r)
    (hd : parseFloat? sd = some d) :
    update_planet now auth
      [("planet_id", sid), ("planet_name", name), ("planet_type", ptype),
       ("home_star", star), ("mass", sm), ("radius", sr), ("distance", sd)] db =
      (.ok ⟨202, name ++ " was updated!", none, none⟩,
       ⟨db.users,
        db.planets.map (fun q => if q.planet_id == p.planet_id then
          ⟨p.planet_id, name, ptype, star, m, r, d⟩ else q),
        db.nextUserId, db.nextPlanetId⟩) ∧
    ((update_planet 0 (some tokW)
        [("planet_id", "1"), ("planet_name", "mars"), ("planet_type", "Class K"),
         ("home_star", "Sol"), ("mass", "1"), ("radius", "1"), ("distance", "1")]
        (add_planet 0 (some tokW)
          [("planet_name", "mars"), ("planet_type", "Class D"), ("home_star", "Sol"),
           ("mass", "1"), ("radius", "1"), ("distance", "1")] dbV).2).2.planets.map
      Planet.planet_name = ["mars", "Mars"] ∧
     "mars" ≠ "Mars" ∧ "mars".toList.map Char.toLower = "Mars".toList.map Char.toLower) := by
  refine ⟨?_, by decide, by decide, by decide⟩
  exact update_planet_found_eq now auth db p pid sid name ptype star sm sr sd m r d
    hauth hsid hfind hm hr hd

/-- Witness for C10: rename the concrete Venus row to `mars`, stored
verbatim. -/
theorem update_planet_verbatim_name_case_collision_witness :
    authOk 0 (some tokW) = true ∧
    findPlanetById dbW 2 = some ⟨2, "Venus", "Class K", "Sol", 4867, 3760, 6724⟩ ∧
    update_planet 0 (some tokW)
      [("planet_id", "2"), ("planet_name", "mars"), ("planet_type", "Class K"),
       ("home_star", "Sol"), ("mass", "1"), ("radius", "1"), ("distance", "1")] dbW =
      (.ok ⟨202, "mars was updated!", none, none⟩,
       ⟨dbW.users,
        dbW.planets.map (fun q => if q.planet_id == 2 then
          ⟨2, "mars", "Class K", "Sol", 1, 1, 1⟩ else q),
        dbW.nextUserId, dbW.nextPlanetId⟩) :=
  ⟨by decide, by decide,
   (update_planet_verbatim_name_case_collision 0 (some tokW) dbW
      ⟨2, "Venus", "Class K", "Sol", 4867, 3760, 6724⟩ 2 "2" "mars" "Class K" "Sol"
      "1" "1" "1" 1 1 1
      (by decide) (by decide) (by decide) (by decide) (by decide) (by decide)).1⟩

/-- C9: no exposed operation other than `register` ever changes the users
table, and `register` at most appends a single user row — it never modifies
or removes existing ones. -/
theorem users_table_never_mutated
    (now : Nat) (auth : Option Token) (form : Form) (email : String)
    (pid : Nat) (db : DB) :
    (login now form db).2.users = db.users ∧
    (retrieve_password email db).2.1.users = db.users ∧
    (planet_details pid db).2.users = db.users ∧
    (list_planets db).2.users = db.users ∧
    (add_planet now auth form db).2.users = db.users ∧
    (update_planet now auth form db).2.users = db.users ∧
    (remove_planet now auth pid db).2.users = db.users ∧
    ((register form db).2.users = db.users ∨
      ∃ u : User, (register form db).2.users = db.users ++ [u]) := by
  refine ⟨?_, ?_, ?_, rfl, ?_, ?_, ?_, ?_⟩
  · unfold login
    repeat' split
    all_goals rfl
  · unfold retrieve_password
    repeat' split
    all_goals rfl
  · unfold planet_details
    repeat' split
    all_goals rfl
  · unfold add_planet
    repeat' split
    all_goals try rfl
    all_goals dsimp only
    all_goals split <;> simp [insertPlanet]
  · unfold update_planet
    repeat' split
    all_goals rfl
  · unfold remove_planet
    repeat' split
    all_goals rfl
  · unfold register
    repeat' split
    all_goals try exact Or.inl rfl
    all_goals
      rename_i heq
      simp only [insertUser, Prod.mk.injEq] at heq
      obtain ⟨h1, h2⟩ := heq
      subst h2
      exact Or.inr ⟨_, rfl⟩

end PlanetaryApi
